import Mathlib

/-!
# ciao-controller: external IP pools and the address-mapping protocol

A shallow embedding of `ciao-controller/external_ip.go`.

The controller methods talk to three collaborators that the file only uses
through their methods: the datastore `c.ds`, the quota service `c.qs` and the
SSNTP client `c.client`.  They are parameters of the embedding: each method is
a function on an abstract world `W` that returns its Go results and the next
world.  Every collaborator invocation is appended to a call log, so that
"is called exactly once" and "is never called" are statements about that log.

Go conventions used below:
* `error` is `Option Err` (`none` is `nil`);
* `*string` is `Option String`, `*types.Instance` is `Option Instance`;
* a `(T, error)` result is the pair `T × Option Err`;
* dereferencing a nil pointer is the outcome `panicked`.
-/

namespace Ciao

/-! ## Data model (`ciao-controller/types`, `payloads`) -/

/-- Go `error` values seen by the controller: the four sentinel errors of
`types` that `external_ip.go` returns itself, and any other error a
collaborator hands back. -/
inductive Err where
  | ErrQuota
  | ErrPoolEmpty
  | ErrDuplicatePoolName
  | ErrBadRequest
  | other (msg : String)
  deriving DecidableEq

/-- The `types.Link` record. -/
structure Link where
  Rel : String
  Href : String
  deriving DecidableEq

/-- The `types.ExternalSubnet` record. -/
structure ExternalSubnet where
  ID : String
  CIDR : String
  Links : List Link
  deriving DecidableEq

/-- The `types.ExternalIP` record. -/
structure ExternalIP where
  ID : String
  Address : String
  Links : List Link
  deriving DecidableEq

/-- The `types.Pool` record. -/
structure Pool where
  ID : String
  Name : String
  Free : Int
  Subnets : List ExternalSubnet
  IPs : List ExternalIP
  Links : List Link
  deriving DecidableEq

/-- The `types.MappedIP` record. -/
structure MappedIP where
  ID : String
  ExternalIP : String
  InstanceID : String
  TenantID : String
  PoolID : String
  Links : List Link
  deriving DecidableEq

/-- The `types.Instance` record (the fields the controller reads). -/
structure Instance where
  ID : String
  TenantID : String
  deriving DecidableEq

/-- The `types.Tenant` record: its ID and its CNCI binding. -/
structure Tenant where
  ID : String
  CNCI : String
  deriving DecidableEq

/-- The `payloads.Resource` kinds. -/
inductive Resource where
  | Instance
  | ExternalIP
  deriving DecidableEq

/-- The `payloads.RequestedResource` record. -/
structure RequestedResource where
  Type_ : Resource
  Value : Int
  deriving DecidableEq

/-- The answer of the quota service; `Allowed` is `res.Allowed()`. -/
structure Result where
  Allowed : Bool
  deriving DecidableEq

/-- Go zero value `types.Pool{}`. -/
def Pool.zero : Pool := ⟨"", "", 0, [], [], []⟩

/-- Go zero value of `types.MappedIP` (`var m types.MappedIP`). -/
def MappedIP.zero : MappedIP := ⟨"", "", "", "", "", []⟩

/-! ## Collaborators -/

/-- The datastore methods `external_ip.go` calls on `c.ds`. -/
structure Datastore (W : Type) where
  GetPools : W → (List Pool × Option Err) × W
  GetPool : String → W → (Pool × Option Err) × W
  AddPool : Pool → W → Option Err × W
  DeletePool : String → W → Option Err × W
  AddExternalSubnet : String → String → W → Option Err × W
  AddExternalIPs : String → List String → W → Option Err × W
  DeleteSubnet : String → String → W → Option Err × W
  DeleteExternalIP : String → String → W → Option Err × W
  GetMappedIPs : Option String → W → List MappedIP × W
  GetMappedIP : String → W → (MappedIP × Option Err) × W
  MapExternalIP : String → String → W → (MappedIP × Option Err) × W
  GetInstance : String → W → (Option Instance × Option Err) × W
  GetTenantInstance : String → String → W → (Option Instance × Option Err) × W
  GetTenant : String → W → (Option Tenant × Option Err) × W

/-- The quota service methods called on `c.qs`.  `Consume` stands for the
whole rendezvous `<-c.qs.Consume(...)`: it yields the received result. -/
structure Quotas (W : Type) where
  Consume : String → RequestedResource → W → Result × W
  Release : String → RequestedResource → W → W

/-- The SSNTP client methods called on `c.client`. -/
structure Client (W : Type) where
  mapExternalIP : Tenant → MappedIP → W → Option Err × W
  unMapExternalIP : Tenant → MappedIP → W → Option Err × W

/-- The `controller` struct: the fields `external_ip.go` reads, and the
`uuid.Generate().String()` source used by `AddPool`. -/
structure controller (W : Type) where
  apiURL : String
  ds : Datastore W
  qs : Quotas W
  client : Client W
  uuidGenerate : W → String × W

/-- One collaborator invocation, with its arguments. -/
inductive Call where
  | GetPools
  | GetPool (ID : String)
  | AddPool (pool : Pool)
  | DeletePool (ID : String)
  | AddExternalSubnet (poolID subnet : String)
  | AddExternalIPs (poolID : String) (ips : List String)
  | DeleteSubnet (poolID subnetID : String)
  | DeleteExternalIP (poolID IPID : String)
  | GetMappedIPs (tenant : Option String)
  | GetMappedIP (address : String)
  | MapExternalIP (poolID instanceID : String)
  | GetInstance (instanceID : String)
  | GetTenantInstance (tenantID instanceID : String)
  | GetTenant (ID : String)
  | Consume (tenantID : String) (r : RequestedResource)
  | Release (tenantID : String) (r : RequestedResource)
  | mapExternalIP (t : Tenant) (m : MappedIP)
  | unMapExternalIP (t : Tenant) (m : MappedIP)
  | uuidGenerate
  deriving DecidableEq

/-- The running state of a controller method: the collaborators' world and
the log of the calls made so far, oldest first. -/
structure Run (W : Type) where
  world : W
  calls : List Call
  deriving DecidableEq

/-- Invoke a collaborator method: run it on the world and log the call. -/
def call {W α : Type} (ev : Call) (f : W → α × W) (s : Run W) : α × Run W :=
  ((f s.world).1, ⟨(f s.world).2, s.calls ++ [ev]⟩)

/-- Invoke a collaborator method that returns nothing. -/
def callUnit {W : Type} (ev : Call) (f : W → W) (s : Run W) : Run W :=
  ⟨f s.world, s.calls ++ [ev]⟩

/-- How a method invocation ends: it returns a value, or a nil pointer
dereference panics. -/
inductive Outcome (α : Type) where
  | returned (v : α)
  | panicked
  deriving DecidableEq

/-! ## `external_ip.go` -/

/-- The `makeMappedIPLinks` method (lines 63-89), on a record by value. -/
def makeMappedIPLinks {W : Type} (c : controller W) (IP : MappedIP) (tenant : Option String) :
    MappedIP :=
  let ref :=
    match tenant with
    | some t => c.apiURL ++ "/" ++ t ++ "/external-ips/" ++ IP.ID
    | none => c.apiURL ++ "/external-ips/" ++ IP.ID
  let selfLink : Link := { Rel := "self", Href := ref }
  let IP1 := { IP with Links := [selfLink] }
  match tenant with
  | none =>
    let poolRef := c.apiURL ++ "/pools/" ++ IP1.PoolID
    let link : Link := { Rel := "pool", Href := poolRef }
    { IP1 with Links := IP1.Links ++ [link] }
  | some _ => IP1

/-- The `AddAddress` method (lines 148-154). -/
def AddAddress {W : Type} (c : controller W) (poolID : String) (subnet : Option String)
    (ips : List String) (s : Run W) : Option Err × Run W :=
  match subnet with
  | some sn => call (.AddExternalSubnet poolID sn) (c.ds.AddExternalSubnet poolID sn) s
  | none => call (.AddExternalIPs poolID ips) (c.ds.AddExternalIPs poolID ips) s

/-- The `AddPool` method (lines 91-119). -/
def AddPool {W : Type} (c : controller W) (name : String) (subnet : Option String)
    (ips : List String) (s : Run W) : (Pool × Option Err) × Run W :=
  match call .GetPools c.ds.GetPools s with
  | ((_, some err), s1) => ((Pool.zero, some err), s1)
  | ((pools, none), s1) =>
    if pools.any (fun p => decide (p.Name = name)) then
      ((Pool.zero, some .ErrDuplicatePoolName), s1)
    else
      match call .uuidGenerate c.uuidGenerate s1 with
      | (id, s2) =>
        let pool : Pool := { Pool.zero with ID := id, Name := name }
        match call (.AddPool pool) (c.ds.AddPool pool) s2 with
        | (some err, s3) => ((pool, some err), s3)
        | (none, s3) =>
          match AddAddress c pool.ID subnet ips s3 with
          | (some err, s4) => ((pool, some err), s4)
          | (none, s4) => call (.GetPool pool.ID) (c.ds.GetPool pool.ID) s4

/-- The `DeletePool` method (lines 156-158). -/
def DeletePool {W : Type} (c : controller W) (ID : String) (s : Run W) : Option Err × Run W :=
  call (.DeletePool ID) (c.ds.DeletePool ID) s

/-- The `RemoveAddress` method (lines 160-170). -/
def RemoveAddress {W : Type} (c : controller W) (poolID : String) (subnetID : Option String)
    (IPID : Option String) (s : Run W) : Option Err × Run W :=
  match subnetID with
  | some sn => call (.DeleteSubnet poolID sn) (c.ds.DeleteSubnet poolID sn) s
  | none =>
    match IPID with
    | some ip => call (.DeleteExternalIP poolID ip) (c.ds.DeleteExternalIP poolID ip) s
    | none => (some .ErrBadRequest, s)

/-- The `ListMappedAddresses` method (lines 172-181). -/
def ListMappedAddresses {W : Type} (c : controller W) (tenant : Option String) (s : Run W) :
    List MappedIP × Run W :=
  match call (.GetMappedIPs tenant) (c.ds.GetMappedIPs tenant) s with
  | (IPs, s1) => (IPs.map (fun IP => makeMappedIPLinks c IP tenant), s1)

/-- The `UnMapAddress` method (lines 248-262). -/
def UnMapAddress {W : Type} (c : controller W) (address : String) (s : Run W) :
    Outcome (Option Err) × Run W :=
  match call (.GetMappedIP address) (c.ds.GetMappedIP address) s with
  | ((_, some err), s1) => (.returned (some err), s1)
  | ((m, none), s1) =>
    match call (.GetTenant m.TenantID) (c.ds.GetTenant m.TenantID) s1 with
    | ((_, some err), s2) => (.returned (some err), s2)
    | ((none, none), s2) => (.panicked, s2)
    | ((some t, none), s2) =>
      match call (.unMapExternalIP t m) (c.client.unMapExternalIP t m) s2 with
      | (err, s3) => (.returned err, s3)

/-- The resource of lines 198 and 201:
`payloads.RequestedResource{Type: payloads.ExternalIP, Value: 1}`. -/
def oneExternalIP : RequestedResource := { Type_ := .ExternalIP, Value := 1 }

/-- The pool loop of `MapAddress` (lines 216-226), entered with the current
values of `m` and `err`: the first pool that passes the test gets the
`MapExternalIP` call and the loop breaks. -/
def mapLoop {W : Type} (c : controller W) (poolName : Option String) (instanceID : String)
    (m : MappedIP) (err : Option Err) : List Pool → Run W → (MappedIP × Option Err) × Run W
  | [], s => ((m, err), s)
  | pool :: rest, s =>
    match poolName with
    | some n =>
      if pool.Name = n then
        call (.MapExternalIP pool.ID instanceID) (c.ds.MapExternalIP pool.ID instanceID) s
      else mapLoop c poolName instanceID m err rest s
    | none =>
      if pool.Free > 0 then
        call (.MapExternalIP pool.ID instanceID) (c.ds.MapExternalIP pool.ID instanceID) s
      else mapLoop c poolName instanceID m err rest s

/-- How the body of `MapAddress` is left: the value of the named result `err`
at that moment, and whether the exit is a panic rather than a `return`. -/
structure Exit where
  err : Option Err
  panics : Bool
  deriving DecidableEq

/-- Lines 232-245 of `MapAddress`: the steps that follow a committed mapping
`m`.  A `return e` sets `err` to `e`; a panic (of `*t`, or inside the
compensating `UnMapAddress`) leaves `err` as it stands. -/
def mapAddressAgent {W : Type} (c : controller W) (m : MappedIP) (s4 : Run W) : Exit × Run W :=
  match call (.GetTenant m.TenantID) (c.ds.GetTenant m.TenantID) s4 with
  | ((_, some err), s5) =>
    match UnMapAddress c m.ExternalIP s5 with
    | (.returned _, s6) => (⟨some err, false⟩, s6)
    | (.panicked, s6) => (⟨some err, true⟩, s6)
  | ((none, none), s5) => (⟨none, true⟩, s5)
  | ((some t, none), s5) =>
    match call (.mapExternalIP t m) (c.client.mapExternalIP t m) s5 with
    | (some err, s6) =>
      match UnMapAddress c m.ExternalIP s6 with
      | (.returned _, s7) => (⟨some err, false⟩, s7)
      | (.panicked, s7) => (⟨some err, true⟩, s7)
    | (none, s6) => (⟨none, false⟩, s6)

/-- Lines 205-245 of `MapAddress`: what runs between the `defer` statement and
the function's exit. -/
def mapAddressBody {W : Type} (c : controller W) (poolName : Option String)
    (instanceID : String) (res : Result) (s2 : Run W) : Exit × Run W :=
  if !res.Allowed then (⟨some .ErrQuota, false⟩, s2)
  else
    match call .GetPools c.ds.GetPools s2 with
    | ((_, some err), s3) => (⟨some err, false⟩, s3)
    | ((pools, none), s3) =>
      match mapLoop c poolName instanceID MappedIP.zero (some .ErrPoolEmpty) pools s3 with
      | ((_, some err), s4) => (⟨some err, false⟩, s4)
      | ((m, none), s4) => mapAddressAgent c m s4

/-- The `MapAddress` method (lines 183-246).  The deferred function of lines
199-203 runs however `mapAddressBody` is left, and reads the named result
`err`. -/
def MapAddress {W : Type} (c : controller W) (tenantID : String) (poolName : Option String)
    (instanceID : String) (s : Run W) : Outcome (Option Err) × Run W :=
  match
    (if tenantID = "" then
      call (.GetInstance instanceID) (c.ds.GetInstance instanceID) s
    else
      call (.GetTenantInstance tenantID instanceID)
        (c.ds.GetTenantInstance tenantID instanceID) s) with
  | ((_, some err), s1) => (.returned (some err), s1)
  | ((none, none), s1) => (.panicked, s1)
  | ((some i, none), s1) =>
    match call (.Consume i.TenantID oneExternalIP) (c.qs.Consume i.TenantID oneExternalIP) s1 with
    | (res, s2) =>
      match mapAddressBody c poolName instanceID res s2 with
      | (x, s7) =>
        let s8 :=
          match x.err with
          | some _ =>
            callUnit (.Release i.TenantID oneExternalIP) (c.qs.Release i.TenantID oneExternalIP) s7
          | none => s7
        (if x.panics then .panicked else .returned x.err, s8)

/-! ## A reference world

An in-memory store, quota counter and remote agent, used to run the methods on
concrete inputs. -/

/-- Modelled from the spec: the collaborators' state, which is not part of
`external_ip.go`.  The store holds pools, mapped IPs, instances and tenants
(spec section 3); the quota service holds one usage counter and its limit;
the remote agent holds the addresses programmed on it and whether its next
map and unmap commands fail. -/
structure Sim where
  pools : List Pool
  mapped : List MappedIP
  instances : List Instance
  tenants : List Tenant
  quotaLimit : Int
  quotaUsage : Int
  programmed : List String
  mapFails : Bool
  unMapFails : Bool
  uuids : Nat
  deriving DecidableEq

/-- Modelled from the spec: the error a store lookup reports when the record
is not there (`NotFound`, spec section 7). -/
def notFound : Err := .other "not found"

/-- Modelled from the spec: the store's atomic claim `MapExternalIP` (spec
sections 4.2 step 5 and 6): the first address of the pool that no mapping
holds is bound to the instance and the pool's `Free` count drops by one. -/
def Sim.MapExternalIP (poolID instanceID : String) (w : Sim) : (MappedIP × Option Err) × Sim :=
  match w.instances.find? (fun i => decide (i.ID = instanceID)),
      w.pools.find? (fun p => decide (p.ID = poolID)) with
  | some i, some p =>
    match p.IPs.find? (fun ip => !w.mapped.any (fun m => decide (m.ExternalIP = ip.Address))) with
    | some ip =>
      let m : MappedIP :=
        { ID := ip.ID, ExternalIP := ip.Address, InstanceID := instanceID,
          TenantID := i.TenantID, PoolID := poolID, Links := [] }
      ((m, none),
        { w with
          mapped := w.mapped ++ [m]
          pools := w.pools.map (fun q => if q.ID = poolID then { q with Free := q.Free - 1 } else q) })
    | none => ((MappedIP.zero, some .ErrPoolEmpty), w)
  | _, _ => ((MappedIP.zero, some notFound), w)

/-- Modelled from the spec: the in-memory datastore (spec section 6).  Lookups
leave the store as it is and report `notFound` for a missing record. -/
def Sim.ds : Datastore Sim where
  GetPools w := ((w.pools, none), w)
  GetPool ID w :=
    match w.pools.find? (fun p => decide (p.ID = ID)) with
    | some p => ((p, none), w)
    | none => ((Pool.zero, some notFound), w)
  AddPool pool w := (none, { w with pools := w.pools ++ [pool] })
  DeletePool ID w := (none, { w with pools := w.pools.filter (fun p => !decide (p.ID = ID)) })
  AddExternalSubnet _ _ w := (none, w)
  AddExternalIPs poolID ips w :=
    (none,
      { w with
        pools := w.pools.map (fun q =>
          if q.ID = poolID then
            { q with
              IPs := q.IPs ++ ips.map (fun a => ⟨a, a, []⟩)
              Free := q.Free + ips.length }
          else q) })
  DeleteSubnet poolID subnetID w :=
    (none,
      { w with
        pools := w.pools.map (fun q =>
          if q.ID = poolID then
            { q with Subnets := q.Subnets.filter (fun sn => !decide (sn.ID = subnetID)) }
          else q) })
  DeleteExternalIP poolID IPID w :=
    (none,
      { w with
        pools := w.pools.map (fun q =>
          if q.ID = poolID then
            { q with IPs := q.IPs.filter (fun ip => !decide (ip.ID = IPID)) }
          else q) })
  GetMappedIPs tenant w :=
    match tenant with
    | some t => (w.mapped.filter (fun m => decide (m.TenantID = t)), w)
    | none => (w.mapped, w)
  GetMappedIP address w :=
    match w.mapped.find? (fun m => decide (m.ExternalIP = address)) with
    | some m => ((m, none), w)
    | none => ((MappedIP.zero, some notFound), w)
  MapExternalIP := Sim.MapExternalIP
  GetInstance instanceID w :=
    match w.instances.find? (fun i => decide (i.ID = instanceID)) with
    | some i => ((some i, none), w)
    | none => ((none, some notFound), w)
  GetTenantInstance tenantID instanceID w :=
    match w.instances.find? (fun i => decide (i.ID = instanceID ∧ i.TenantID = tenantID)) with
    | some i => ((some i, none), w)
    | none => ((none, some notFound), w)
  GetTenant ID w :=
    match w.tenants.find? (fun t => decide (t.ID = ID)) with
    | some t => ((some t, none), w)
    | none => ((none, some notFound), w)

/-- Modelled from the spec: the quota service (spec section 6).  A request is
allowed when it fits under the limit and is then added to the usage; a denied
request consumes nothing; `Release` gives the units back. -/
def Sim.qs : Quotas Sim where
  Consume _ r w :=
    if w.quotaUsage + r.Value ≤ w.quotaLimit then
      (⟨true⟩, { w with quotaUsage := w.quotaUsage + r.Value })
    else (⟨false⟩, w)
  Release _ r w := { w with quotaUsage := w.quotaUsage - r.Value }

/-- The error of a remote agent that rejects a map command. -/
def mapFailed : Err := .other "map failed"

/-- The error of a remote agent that rejects an unmap command. -/
def unMapFailed : Err := .other "unmap failed"

/-- Modelled from the spec: the remote agent client (spec section 6).  A
command either fails, or installs or removes the address on the agent; the
client never writes to the store. -/
def Sim.client : Client Sim where
  mapExternalIP _ m w :=
    if w.mapFails then (some mapFailed, w)
    else (none, { w with programmed := w.programmed ++ [m.ExternalIP] })
  unMapExternalIP _ m w :=
    if w.unMapFails then (some unMapFailed, w)
    else (none, { w with programmed := w.programmed.filter (fun a => !decide (a = m.ExternalIP)) })

/-- The controller wired to the reference world, serving at `http://c`. -/
def Sim.controller : controller Sim where
  apiURL := "http://c"
  ds := Sim.ds
  qs := Sim.qs
  client := Sim.client
  uuidGenerate w := ("pool-" ++ toString w.uuids, { w with uuids := w.uuids + 1 })

/-- The pool `p1`, named `ext`, with the single free address `10.0.0.2`. -/
def pool1 : Pool :=
  { ID := "p1", Name := "ext", Free := 1, Subnets := [],
    IPs := [⟨"a1", "10.0.0.2", []⟩], Links := [] }

/-- The instance `i1` of tenant `t1`. -/
def instance1 : Instance := ⟨"i1", "t1"⟩

/-- The tenant `t1`. -/
def tenant1 : Tenant := ⟨"t1", "cnci1"⟩

/-- The mapping of `10.0.0.2` to `i1` that the reference store creates. -/
def mapping1 : MappedIP :=
  { ID := "a1", ExternalIP := "10.0.0.2", InstanceID := "i1", TenantID := "t1",
    PoolID := "p1", Links := [] }

/-- A world with tenant `t1`, its instance `i1` and the pool `p1`; one unit of
quota is available and the remote agent accepts commands. -/
def world1 : Sim where
  pools := [pool1]
  mapped := []
  instances := [instance1]
  tenants := [tenant1]
  quotaLimit := 1
  quotaUsage := 0
  programmed := []
  mapFails := false
  unMapFails := false
  uuids := 0

/-- The world `world1` with no quota left for an external IP. -/
def worldNoQuota : Sim := { world1 with quotaLimit := 0 }

/-- The world `world1` with a remote agent that rejects map commands. -/
def worldDown : Sim := { world1 with mapFails := true }

/-- The world `worldDown` after the quota unit is consumed. -/
def worldDownConsumed : Sim := { worldDown with quotaUsage := 1 }

/-- The world `worldDown` after the store has committed `mapping1`. -/
def worldDownCommitted : Sim :=
  { worldDownConsumed with mapped := [mapping1], pools := [{ pool1 with Free := 0 }] }

/-- The world `world1` with a remote agent that rejects every command. -/
def worldDead : Sim := { world1 with mapFails := true, unMapFails := true }

/-- The world `worldDead` after the quota unit is consumed. -/
def worldDeadConsumed : Sim := { worldDead with quotaUsage := 1 }

/-- The world `worldDead` after the store has committed `mapping1`. -/
def worldDeadCommitted : Sim :=
  { worldDeadConsumed with mapped := [mapping1], pools := [{ pool1 with Free := 0 }] }

/-- The world `world1` whose tenant directory has lost `t1`. -/
def worldNoTenant : Sim := { world1 with tenants := [] }

/-- The world `worldNoTenant` after the quota unit is consumed. -/
def worldNoTenantConsumed : Sim := { worldNoTenant with quotaUsage := 1 }

/-- The world `worldNoTenant` after the store has committed `mapping1`. -/
def worldNoTenantCommitted : Sim :=
  { worldNoTenantConsumed with mapped := [mapping1], pools := [{ pool1 with Free := 0 }] }

/-- The exhausted pool `p0`, named `old`. -/
def pool0 : Pool :=
  { ID := "p0", Name := "old", Free := 0, Subnets := [], IPs := [], Links := [] }

/-- The world `world1` with the exhausted pool `p0` listed before `p1`. -/
def world2 : Sim := { world1 with pools := [pool0, pool1] }

/-- The world `world2` after the quota unit is consumed. -/
def world2Consumed : Sim := { world2 with quotaUsage := 1 }

/-- The pool that `AddPool "new"` creates in `world1` from the address
`10.0.1.2`. -/
def poolNew : Pool :=
  { ID := "pool-0", Name := "new", Free := 1, Subnets := [],
    IPs := [⟨"10.0.1.2", "10.0.1.2", []⟩], Links := [] }

/-- The world `world1` after `AddPool "new"` with the address `10.0.1.2`. -/
def world1New : Sim := { world1 with pools := [pool1, poolNew], uuids := 1 }

/-- The view of the reference world that holds the store's pools and mapped
IPs. -/
def Sim.store (w : Sim) : List Pool × List MappedIP := (w.pools, w.mapped)

/-- The start of a method invocation on world `w`: nothing called yet. -/
def start {W : Type} (w : W) : Run W := ⟨w, []⟩

/-! ## Reading the call log -/

/-- The call is a quota `Release`. -/
def Call.isRelease : Call → Bool
  | .Release _ _ => true
  | _ => false

/-- The call is the store's `MapExternalIP`. -/
def Call.isMapExternalIP : Call → Bool
  | .MapExternalIP _ _ => true
  | _ => false

/-- The call is one of the store methods that create, change or delete a
record. -/
def Call.isStoreWrite : Call → Bool
  | .AddPool _ => true
  | .DeletePool _ => true
  | .AddExternalSubnet _ _ => true
  | .AddExternalIPs _ _ => true
  | .DeleteSubnet _ _ => true
  | .DeleteExternalIP _ _ => true
  | .MapExternalIP _ _ => true
  | _ => false

/-- The call is the store's `GetMappedIP`, the first step of `UnMapAddress`. -/
def Call.isGetMappedIP : Call → Bool
  | .GetMappedIP _ => true
  | _ => false

/-- The instance lookup of lines 187-192, as a log entry. -/
def lookupCall (tenantID instanceID : String) : Call :=
  if tenantID = "" then .GetInstance instanceID else .GetTenantInstance tenantID instanceID

/-- The instance lookup of lines 187-192, as a function on the world. -/
def lookup {W : Type} (c : controller W) (tenantID instanceID : String) :
    W → (Option Instance × Option Err) × W :=
  if tenantID = "" then c.ds.GetInstance instanceID
  else c.ds.GetTenantInstance tenantID instanceID

/-- The test a pool has to pass in the loop of lines 216-226: its name is the
requested one, or, when no name is requested, it has a free address. -/
def eligible (poolName : Option String) (pool : Pool) : Bool :=
  match poolName with
  | some n => decide (pool.Name = n)
  | none => decide (pool.Free > 0)

/-! ## Lemmas -/

theorem call_eq {W α : Type} (ev : Call) (f : W → α × W) (s : Run W) :
    call ev f s = ((f s.world).1, ⟨(f s.world).2, s.calls ++ [ev]⟩) := rfl

theorem lookup_step {W : Type} (c : controller W) (tenantID instanceID : String) (s : Run W) :
    (if tenantID = "" then
      call (.GetInstance instanceID) (c.ds.GetInstance instanceID) s
    else
      call (.GetTenantInstance tenantID instanceID)
        (c.ds.GetTenantInstance tenantID instanceID) s)
      = call (lookupCall tenantID instanceID) (lookup c tenantID instanceID) s := by
  unfold lookupCall lookup
  split <;> rfl

/-- The loop stops at the first eligible pool. -/
theorem mapLoop_eq {W : Type} (c : controller W) (poolName : Option String)
    (instanceID : String) (m : MappedIP) (err : Option Err) (pools : List Pool) (s : Run W) :
    mapLoop c poolName instanceID m err pools s =
      match pools.find? (eligible poolName) with
      | some p => call (.MapExternalIP p.ID instanceID) (c.ds.MapExternalIP p.ID instanceID) s
      | none => ((m, err), s) := by
  induction pools with
  | nil => simp [mapLoop]
  | cons pool rest ih =>
    cases poolName with
    | none =>
      by_cases h : pool.Free > 0
      · simp [mapLoop, eligible, h]
      · have ih2 := ih
        simp only [eligible] at ih2
        simp [mapLoop, eligible, h, ih2]
    | some n =>
      by_cases h : pool.Name = n
      · simp [mapLoop, eligible, h]
      · have ih2 := ih
        simp only [eligible] at ih2
        simp [mapLoop, eligible, h, ih2]

/-- What `UnMapAddress` adds to the log is invisible to a filter that rejects
the two lookups and the remote unmap. -/
theorem UnMapAddress_log {W : Type} (c : controller W) (address : String) (s : Run W)
    (P : Call → Bool) (h1 : ∀ a, P (.GetMappedIP a) = false)
    (h2 : ∀ a, P (.GetTenant a) = false) (h3 : ∀ t m, P (.unMapExternalIP t m) = false) :
    ∃ added, (UnMapAddress c address s).2.calls = s.calls ++ added ∧ added.filter P = [] := by
  unfold UnMapAddress
  rcases hm : c.ds.GetMappedIP address s.world with ⟨⟨m, _ | e⟩, w1⟩
  · rcases ht : c.ds.GetTenant m.TenantID w1 with ⟨⟨_ | t, _ | e⟩, w2⟩
    · exact ⟨[.GetMappedIP address, .GetTenant m.TenantID], by simp [call_eq, hm, ht, h1, h2]⟩
    · exact ⟨[.GetMappedIP address, .GetTenant m.TenantID], by simp [call_eq, hm, ht, h1, h2]⟩
    · exact ⟨[.GetMappedIP address, .GetTenant m.TenantID, .unMapExternalIP t m],
        by simp [call_eq, hm, ht, h1, h2, h3]⟩
    · exact ⟨[.GetMappedIP address, .GetTenant m.TenantID], by simp [call_eq, hm, ht, h1, h2]⟩
  · exact ⟨[.GetMappedIP address], by simp [call_eq, hm, h1]⟩

/-- The compensation step keeps the state `UnMapAddress` leaves. -/
theorem compensate_snd {W : Type} (r : Outcome (Option Err) × Run W) (err : Err) :
    (match r with
      | (.returned _, s6) => ((⟨some err, false⟩ : Exit), s6)
      | (.panicked, s6) => (⟨some err, true⟩, s6)).2 = r.2 := by
  rcases r with ⟨_ | _, s6⟩ <;> rfl

/-- What the steps after the commit add to the log is invisible to a filter
that rejects the lookups and the two remote calls. -/
theorem mapAddressAgent_log {W : Type} (c : controller W) (m : MappedIP) (s4 : Run W)
    (P : Call → Bool) (h1 : ∀ a, P (.GetMappedIP a) = false)
    (h2 : ∀ a, P (.GetTenant a) = false) (h3 : ∀ t m, P (.unMapExternalIP t m) = false)
    (h4 : ∀ t m, P (.mapExternalIP t m) = false) :
    ∃ added, (mapAddressAgent c m s4).2.calls = s4.calls ++ added ∧ added.filter P = [] := by
  unfold mapAddressAgent
  rcases ht : c.ds.GetTenant m.TenantID s4.world with ⟨⟨_ | t, _ | e⟩, w5⟩
  · exact ⟨[.GetTenant m.TenantID], by simp [call_eq, ht, h2]⟩
  · simp only [call_eq, ht, compensate_snd]
    obtain ⟨added, ha, hf⟩ := UnMapAddress_log c m.ExternalIP
      ⟨w5, s4.calls ++ [.GetTenant m.TenantID]⟩ P h1 h2 h3
    exact ⟨.GetTenant m.TenantID :: added, by simp [ha], by simp [h2, hf]⟩
  · rcases hr : c.client.mapExternalIP t m w5 with ⟨_ | e, w6⟩
    · exact ⟨[.GetTenant m.TenantID, .mapExternalIP t m], by simp [call_eq, ht, hr, h2, h4]⟩
    · simp only [call_eq, ht, hr, compensate_snd]
      obtain ⟨added, ha, hf⟩ := UnMapAddress_log c m.ExternalIP
        ⟨w6, s4.calls ++ [.GetTenant m.TenantID] ++ [.mapExternalIP t m]⟩ P h1 h2 h3
      exact ⟨.GetTenant m.TenantID :: .mapExternalIP t m :: added, by simpa using ha,
        by simp [h2, h4, hf]⟩
  · simp only [call_eq, ht, compensate_snd]
    obtain ⟨added, ha, hf⟩ := UnMapAddress_log c m.ExternalIP
      ⟨w5, s4.calls ++ [.GetTenant m.TenantID]⟩ P h1 h2 h3
    exact ⟨.GetTenant m.TenantID :: added, by simp [ha], by simp [h2, hf]⟩

/-- What the body of `MapAddress` adds to the log is invisible to a filter
that rejects `GetPools`, `MapExternalIP`, the lookups and the remote calls. -/
theorem mapAddressBody_log {W : Type} (c : controller W) (poolName : Option String)
    (instanceID : String) (res : Result) (s2 : Run W)
    (P : Call → Bool) (h1 : ∀ a, P (.GetMappedIP a) = false)
    (h2 : ∀ a, P (.GetTenant a) = false) (h3 : ∀ t m, P (.unMapExternalIP t m) = false)
    (h4 : ∀ t m, P (.mapExternalIP t m) = false) (h5 : P .GetPools = false)
    (h6 : ∀ a b, P (.MapExternalIP a b) = false) :
    ∃ added, (mapAddressBody c poolName instanceID res s2).2.calls = s2.calls ++ added ∧
      added.filter P = [] := by
  unfold mapAddressBody
  cases hres : res.Allowed
  · exact ⟨[], by simp⟩
  · simp only [Bool.not_true, Bool.false_eq_true, if_false]
    rcases hp : c.ds.GetPools s2.world with ⟨⟨pools, _ | e⟩, w3⟩
    · simp only [call_eq, hp, mapLoop_eq]
      cases hf : pools.find? (eligible poolName) with
      | none => exact ⟨[.GetPools], by simp [h5]⟩
      | some p =>
        rcases hm : c.ds.MapExternalIP p.ID instanceID w3 with ⟨⟨m, _ | e⟩, w4⟩
        · simp only [call_eq, hm]
          obtain ⟨added, ha, hf⟩ := mapAddressAgent_log c m
            ⟨w4, s2.calls ++ [.GetPools] ++ [.MapExternalIP p.ID instanceID]⟩ P h1 h2 h3 h4
          exact ⟨.GetPools :: .MapExternalIP p.ID instanceID :: added, by simpa using ha,
            by simp [h5, h6, hf]⟩
        · exact ⟨[.GetPools, .MapExternalIP p.ID instanceID], by simp [call_eq, hm, h5, h6]⟩
    · exact ⟨[.GetPools], by simp [call_eq, hp, h5]⟩

/-- The log of `MapAddress` starts with the instance lookup. -/
theorem MapAddress_log {W : Type} (c : controller W) (tenantID : String)
    (poolName : Option String) (instanceID : String) (s : Run W) :
    ∃ added, (MapAddress c tenantID poolName instanceID s).2.calls
      = s.calls ++ lookupCall tenantID instanceID :: added := by
  unfold MapAddress
  rw [lookup_step]
  rcases hl : lookup c tenantID instanceID s.world with ⟨⟨_ | i, _ | e⟩, w1⟩
  · exact ⟨[], by simp [call_eq, hl]⟩
  · exact ⟨[], by simp [call_eq, hl]⟩
  · simp only [call_eq, hl]
    obtain ⟨added, ha, -⟩ := mapAddressBody_log c poolName instanceID
      (c.qs.Consume i.TenantID oneExternalIP w1).1
      ⟨(c.qs.Consume i.TenantID oneExternalIP w1).2,
        s.calls ++ [lookupCall tenantID instanceID] ++ [.Consume i.TenantID oneExternalIP]⟩
      (fun _ => false) (fun _ => rfl) (fun _ => rfl) (fun _ _ => rfl) (fun _ _ => rfl) rfl
      (fun _ _ => rfl)
    cases hx : (mapAddressBody c poolName instanceID
      (c.qs.Consume i.TenantID oneExternalIP w1).1
      ⟨(c.qs.Consume i.TenantID oneExternalIP w1).2,
        s.calls ++ [lookupCall tenantID instanceID] ++ [.Consume i.TenantID oneExternalIP]⟩).1.err
    · exact ⟨.Consume i.TenantID oneExternalIP :: added, by simpa using ha⟩
    · refine ⟨.Consume i.TenantID oneExternalIP :: added ++ [.Release i.TenantID oneExternalIP], ?_⟩
      simp only [callUnit, List.append_assoc, List.singleton_append, List.cons_append,
        List.nil_append] at ha ⊢
      simp [ha]
  · exact ⟨[], by simp [call_eq, hl]⟩

/-- One run of `UnMapAddress` is one `GetMappedIP` call, on its address. -/
theorem UnMapAddress_isGetMappedIP {W : Type} (c : controller W) (address : String)
    (s : Run W) :
    (UnMapAddress c address s).2.calls.filter Call.isGetMappedIP
      = s.calls.filter Call.isGetMappedIP ++ [.GetMappedIP address] := by
  unfold UnMapAddress
  rcases hm : c.ds.GetMappedIP address s.world with ⟨⟨m, _ | e⟩, w1⟩
  · rcases ht : c.ds.GetTenant m.TenantID w1 with ⟨⟨_ | t, _ | e⟩, w2⟩ <;>
      simp [call_eq, hm, ht, Call.isGetMappedIP]
  · simp [call_eq, hm, Call.isGetMappedIP]

/-- A view of the world that the two lookups and the remote unmap leave alone
is left alone by `UnMapAddress`. -/
theorem UnMapAddress_frame {W S : Type} (c : controller W) (store : W → S)
    (hfT : ∀ a x, store (c.ds.GetTenant a x).2 = store x)
    (hfM : ∀ a x, store (c.ds.GetMappedIP a x).2 = store x)
    (hfU : ∀ t m x, store (c.client.unMapExternalIP t m x).2 = store x)
    (address : String) (s : Run W) :
    store (UnMapAddress c address s).2.world = store s.world := by
  unfold UnMapAddress
  rcases hm : c.ds.GetMappedIP address s.world with ⟨⟨m, _ | e⟩, w1⟩
  · have h1 := hfM address s.world
    rw [hm] at h1
    rcases ht : c.ds.GetTenant m.TenantID w1 with ⟨⟨_ | t, _ | e⟩, w2⟩
    · have h2 := hfT m.TenantID w1
      rw [ht] at h2
      simpa [call_eq, hm, ht, h2] using h1
    · have h2 := hfT m.TenantID w1
      rw [ht] at h2
      simpa [call_eq, hm, ht, h2] using h1
    · have h2 := hfT m.TenantID w1
      rw [ht] at h2
      have h3 := hfU t m w2
      simp only [call_eq, hm, ht]
      rw [h3]
      simpa [h2] using h1
    · have h2 := hfT m.TenantID w1
      rw [ht] at h2
      simpa [call_eq, hm, ht, h2] using h1
  · have h1 := hfM address s.world
    rw [hm] at h1
    simpa [call_eq, hm] using h1

/-- The run of `MapAddress` when `GetTenant` fails after the commit: one
`UnMapAddress`, then the deferred `Release`. -/
theorem MapAddress_tenant_failure {W : Type} (c : controller W) (tenantID : String)
    (poolName : Option String) (instanceID : String) (w w1 w2 w3 w4 w5 : W) (i : Instance)
    (res : Result) (pools : List Pool) (p : Pool) (m : MappedIP) (x : Option Tenant)
    (e : Err) (r : Option Err)
    (hi : lookup c tenantID instanceID w = ((some i, none), w1))
    (hq : c.qs.Consume i.TenantID oneExternalIP w1 = (res, w2))
    (hallow : res.Allowed = true)
    (hp : c.ds.GetPools w2 = ((pools, none), w3))
    (hsel : pools.find? (eligible poolName) = some p)
    (hm : c.ds.MapExternalIP p.ID instanceID w3 = ((m, none), w4))
    (ht : c.ds.GetTenant m.TenantID w4 = ((x, some e), w5))
    (hu : (UnMapAddress c m.ExternalIP
        ⟨w5, [lookupCall tenantID instanceID, .Consume i.TenantID oneExternalIP, .GetPools,
          .MapExternalIP p.ID instanceID, .GetTenant m.TenantID]⟩).1 = .returned r) :
    MapAddress c tenantID poolName instanceID (start w) =
      (.returned (some e),
        callUnit (.Release i.TenantID oneExternalIP) (c.qs.Release i.TenantID oneExternalIP)
          (UnMapAddress c m.ExternalIP
            ⟨w5, [lookupCall tenantID instanceID, .Consume i.TenantID oneExternalIP,
              .GetPools, .MapExternalIP p.ID instanceID, .GetTenant m.TenantID]⟩).2) := by
  unfold MapAddress
  rw [lookup_step]
  simp only [call_eq, start, hi, hq, mapAddressBody, hallow, hp, mapLoop_eq, hsel, hm,
    mapAddressAgent, ht, Bool.not_true, Bool.false_eq_true, if_false, List.append_assoc,
    List.nil_append, List.singleton_append, List.cons_append]
  generalize UnMapAddress c m.ExternalIP
    ⟨w5, [lookupCall tenantID instanceID, .Consume i.TenantID oneExternalIP, .GetPools,
      .MapExternalIP p.ID instanceID, .GetTenant m.TenantID]⟩ = U at hu ⊢
  rcases U with ⟨o, s6⟩
  simp only at hu
  subst hu
  rfl

/-- The run of `MapAddress` when the remote `mapExternalIP` fails after the
commit: one `UnMapAddress`, then the deferred `Release`. -/
theorem MapAddress_remote_failure {W : Type} (c : controller W) (tenantID : String)
    (poolName : Option String) (instanceID : String) (w w1 w2 w3 w4 w5 w6 : W) (i : Instance)
    (res : Result) (pools : List Pool) (p : Pool) (m : MappedIP) (t : Tenant)
    (e : Err) (r : Option Err)
    (hi : lookup c tenantID instanceID w = ((some i, none), w1))
    (hq : c.qs.Consume i.TenantID oneExternalIP w1 = (res, w2))
    (hallow : res.Allowed = true)
    (hp : c.ds.GetPools w2 = ((pools, none), w3))
    (hsel : pools.find? (eligible poolName) = some p)
    (hm : c.ds.MapExternalIP p.ID instanceID w3 = ((m, none), w4))
    (ht : c.ds.GetTenant m.TenantID w4 = ((some t, none), w5))
    (hr : c.client.mapExternalIP t m w5 = (some e, w6))
    (hu : (UnMapAddress c m.ExternalIP
        ⟨w6, [lookupCall tenantID instanceID, .Consume i.TenantID oneExternalIP, .GetPools,
          .MapExternalIP p.ID instanceID, .GetTenant m.TenantID,
          .mapExternalIP t m]⟩).1 = .returned r) :
    MapAddress c tenantID poolName instanceID (start w) =
      (.returned (some e),
        callUnit (.Release i.TenantID oneExternalIP) (c.qs.Release i.TenantID oneExternalIP)
          (UnMapAddress c m.ExternalIP
            ⟨w6, [lookupCall tenantID instanceID, .Consume i.TenantID oneExternalIP,
              .GetPools, .MapExternalIP p.ID instanceID, .GetTenant m.TenantID,
              .mapExternalIP t m]⟩).2) := by
  unfold MapAddress
  rw [lookup_step]
  simp only [call_eq, start, hi, hq, mapAddressBody, hallow, hp, mapLoop_eq, hsel, hm,
    mapAddressAgent, ht, hr, Bool.not_true, Bool.false_eq_true, if_false, List.append_assoc,
    List.nil_append, List.singleton_append, List.cons_append]
  generalize UnMapAddress c m.ExternalIP
    ⟨w6, [lookupCall tenantID instanceID, .Consume i.TenantID oneExternalIP, .GetPools,
      .MapExternalIP p.ID instanceID, .GetTenant m.TenantID, .mapExternalIP t m]⟩ = U at hu ⊢
  rcases U with ⟨o, s7⟩
  simp only at hu
  subst hu
  rfl

/-! ## Properties of the specification -/

/-- C1: in a `MapAddress` call whose instance lookup resolves to `i` and whose
one-unit ExternalIP request is granted, a return with a non-nil error comes
with exactly one `Release` call, for `i.TenantID` and one ExternalIP unit, and
a return of `nil` comes with no `Release` call at all. -/
theorem MapAddress_release_iff_error {W : Type} (c : controller W) (tenantID : String)
    (poolName : Option String) (instanceID : String) (w w1 w2 : W) (i : Instance)
    (res : Result)
    (hi : lookup c tenantID instanceID w = ((some i, none), w1))
    (hq : c.qs.Consume i.TenantID oneExternalIP w1 = (res, w2))
    (hallow : res.Allowed = true) :
    (∀ e, (MapAddress c tenantID poolName instanceID (start w)).1 = .returned (some e) →
        (MapAddress c tenantID poolName instanceID (start w)).2.calls.filter Call.isRelease
          = [.Release i.TenantID oneExternalIP]) ∧
    ((MapAddress c tenantID poolName instanceID (start w)).1 = .returned none →
        (MapAddress c tenantID poolName instanceID (start w)).2.calls.filter Call.isRelease
          = []) := by
  obtain ⟨allowed⟩ := res
  simp only at hallow
  subst hallow
  unfold MapAddress
  rw [lookup_step]
  simp only [call_eq, start, hi, hq]
  obtain ⟨added, ha, hf⟩ := mapAddressBody_log c poolName instanceID ⟨true⟩
    ⟨w2, [] ++ [lookupCall tenantID instanceID] ++ [Call.Consume i.TenantID oneExternalIP]⟩
    Call.isRelease (fun _ => rfl) (fun _ => rfl) (fun _ _ => rfl) (fun _ _ => rfl) rfl
    (fun _ _ => rfl)
  rcases hb : mapAddressBody c poolName instanceID ⟨true⟩
      ⟨w2, [] ++ [lookupCall tenantID instanceID] ++ [Call.Consume i.TenantID oneExternalIP]⟩
    with ⟨⟨err, panics⟩, s7⟩
  rw [hb] at ha
  have hl : Call.isRelease (lookupCall tenantID instanceID) = false := by
    unfold lookupCall; split <;> rfl
  have hc : Call.isRelease (Call.Consume i.TenantID oneExternalIP) = false := rfl
  have hr : Call.isRelease (Call.Release i.TenantID oneExternalIP) = true := rfl
  simp only at ha
  cases err <;> cases panics <;>
    simp [callUnit, ha, List.filter_append, List.filter_cons, hl, hc, hr, hf]

/-- C2 (as the code behaves): in a `MapAddress` call whose instance lookup
resolves to `i` and whose quota request is denied, `MapAddress` returns
`ErrQuota`, the deferred function calls `Release` once for `i.TenantID` and one
ExternalIP unit, and nothing else runs: the log holds the lookup, `Consume` and
`Release` only, and the world is the one `Release` leaves. -/
theorem MapAddress_quota_denied {W : Type} (c : controller W) (tenantID : String)
    (poolName : Option String) (instanceID : String) (w w1 w2 : W) (i : Instance)
    (res : Result)
    (hi : lookup c tenantID instanceID w = ((some i, none), w1))
    (hq : c.qs.Consume i.TenantID oneExternalIP w1 = (res, w2))
    (hden : res.Allowed = false) :
    MapAddress c tenantID poolName instanceID (start w) =
      (.returned (some .ErrQuota),
        ⟨c.qs.Release i.TenantID oneExternalIP w2,
          [lookupCall tenantID instanceID, .Consume i.TenantID oneExternalIP,
            .Release i.TenantID oneExternalIP]⟩) := by
  unfold MapAddress
  rw [lookup_step]
  simp [call_eq, start, hi, hq, mapAddressBody, hden, callUnit]

/-- C7: when `GetPools` succeeds and lists a pool named `name`, `AddPool name`
fails with `ErrDuplicatePoolName`, returns the zero pool, and has called
nothing but `GetPools`: no `AddPool`, `AddExternalSubnet` or `AddExternalIPs`
reaches the store. -/
theorem AddPool_duplicate_name {W : Type} (c : controller W) (name : String)
    (subnet : Option String) (ips : List String) (w w1 : W) (pools : List Pool) (p : Pool)
    (hg : c.ds.GetPools w = ((pools, none), w1)) (hp : p ∈ pools) (hn : p.Name = name) :
    AddPool c name subnet ips (start w) =
      ((Pool.zero, some .ErrDuplicatePoolName), ⟨w1, [.GetPools]⟩) := by
  have hany : pools.any (fun q => decide (q.Name = name)) = true :=
    List.any_eq_true.mpr ⟨p, hp, by simp [hn]⟩
  simp [AddPool, call_eq, start, hg, hany]

/-- C8: `RemoveAddress` with a subnet ID is the store's `DeleteSubnet` and
nothing else, whatever the IP ID; without a subnet ID but with an IP ID it is
the store's `DeleteExternalIP`; with neither it returns `ErrBadRequest` and
calls nothing.  It returns without calling the store exactly when neither
identifier is supplied. -/
theorem RemoveAddress_dispatch {W : Type} (c : controller W) (poolID : String)
    (subnetID IPID : Option String) (sn ip : String) (w : W) :
    RemoveAddress c poolID (some sn) IPID (start w) =
        ((c.ds.DeleteSubnet poolID sn w).1,
          ⟨(c.ds.DeleteSubnet poolID sn w).2, [.DeleteSubnet poolID sn]⟩) ∧
    RemoveAddress c poolID none (some ip) (start w) =
        ((c.ds.DeleteExternalIP poolID ip w).1,
          ⟨(c.ds.DeleteExternalIP poolID ip w).2, [.DeleteExternalIP poolID ip]⟩) ∧
    RemoveAddress c poolID none none (start w) = (some .ErrBadRequest, ⟨w, []⟩) ∧
    ((RemoveAddress c poolID subnetID IPID (start w)).2.calls = [] ↔
        (subnetID = none ∧ IPID = none)) := by
  refine ⟨rfl, rfl, rfl, ?_⟩
  cases subnetID <;> cases IPID <;> simp [RemoveAddress, call_eq, start]

/-- C9: `ListMappedAddresses` returns the store's records, each with its
`Links` replaced: for tenant `t`, by the one link `self` to
`apiURL/t/external-ips/ID`; for the administrator, by the two links `self` to
`apiURL/external-ips/ID` and `pool` to `apiURL/pools/PoolID`, in this order.
The other fields are the store's. -/
theorem ListMappedAddresses_links {W : Type} (c : controller W) (t : String) (w : W) :
    (ListMappedAddresses c (some t) (start w)).1 =
        (c.ds.GetMappedIPs (some t) w).1.map (fun IP =>
          { IP with
            Links := [⟨"self", c.apiURL ++ ("/" ++ (t ++ ("/external-ips/" ++ IP.ID)))⟩] }) ∧
    (ListMappedAddresses c none (start w)).1 =
        (c.ds.GetMappedIPs none w).1.map (fun IP =>
          { IP with
            Links := [⟨"self", c.apiURL ++ ("/external-ips/" ++ IP.ID)⟩,
                      ⟨"pool", c.apiURL ++ ("/pools/" ++ IP.PoolID)⟩] }) := by
  constructor <;>
    simp [ListMappedAddresses, makeMappedIPLinks, call_eq, start, String.append_assoc]

/-- C10: `UnMapAddress` looks up the mapping, then the tenant, then returns
what the remote `unMapExternalIP` returns; a failed lookup is returned as it is
and ends the call before the remote agent is reached.  Whatever happens, the
log holds no `Release` and no store write. -/
theorem UnMapAddress_contract {W : Type} (c : controller W) (address : String) (w : W) :
    (∀ m e w1, c.ds.GetMappedIP address w = ((m, some e), w1) →
      UnMapAddress c address (start w) = (.returned (some e), ⟨w1, [.GetMappedIP address]⟩)) ∧
    (∀ m w1 x e w2, c.ds.GetMappedIP address w = ((m, none), w1) →
      c.ds.GetTenant m.TenantID w1 = ((x, some e), w2) →
      UnMapAddress c address (start w) =
        (.returned (some e), ⟨w2, [.GetMappedIP address, .GetTenant m.TenantID]⟩)) ∧
    (∀ m w1 t w2, c.ds.GetMappedIP address w = ((m, none), w1) →
      c.ds.GetTenant m.TenantID w1 = ((some t, none), w2) →
      UnMapAddress c address (start w) =
        (.returned (c.client.unMapExternalIP t m w2).1,
          ⟨(c.client.unMapExternalIP t m w2).2,
            [.GetMappedIP address, .GetTenant m.TenantID, .unMapExternalIP t m]⟩)) ∧
    (UnMapAddress c address (start w)).2.calls.filter
        (fun ev => ev.isRelease || ev.isStoreWrite || ev.isMapExternalIP) = [] := by
  refine ⟨?_, ?_, ?_, ?_⟩
  · intro m e w1 h
    simp [UnMapAddress, call_eq, start, h]
  · intro m w1 x e w2 h1 h2
    simp [UnMapAddress, call_eq, start, h1, h2]
  · intro m w1 t w2 h1 h2
    simp [UnMapAddress, call_eq, start, h1, h2]
  · obtain ⟨added, ha, hf⟩ := UnMapAddress_log c address (start w)
      (fun ev => ev.isRelease || ev.isStoreWrite || ev.isMapExternalIP)
      (fun _ => rfl) (fun _ => rfl) (fun _ _ => rfl)
    rw [ha]
    simpa [start] using hf

/-- C6: the first call of `MapAddress` is `GetInstance instanceID` when
`tenantID` is empty and `GetTenantInstance tenantID instanceID` otherwise; when
that lookup fails with `e`, `MapAddress` returns `e`, the lookup is the only
call made, and the world is the one the lookup leaves. -/
theorem MapAddress_lookup_failure {W : Type} (c : controller W) (tenantID : String)
    (poolName : Option String) (instanceID : String) (w : W) :
    (MapAddress c tenantID poolName instanceID (start w)).2.calls.head?
      = some (if tenantID = "" then Call.GetInstance instanceID
          else Call.GetTenantInstance tenantID instanceID) ∧
    (∀ x e w1, tenantID = "" → c.ds.GetInstance instanceID w = ((x, some e), w1) →
      MapAddress c tenantID poolName instanceID (start w)
        = (.returned (some e), ⟨w1, [.GetInstance instanceID]⟩)) ∧
    (∀ x e w1, tenantID ≠ "" →
      c.ds.GetTenantInstance tenantID instanceID w = ((x, some e), w1) →
      MapAddress c tenantID poolName instanceID (start w)
        = (.returned (some e), ⟨w1, [.GetTenantInstance tenantID instanceID]⟩)) := by
  refine ⟨?_, ?_, ?_⟩
  · obtain ⟨added, ha⟩ := MapAddress_log c tenantID poolName instanceID (start w)
    rw [ha]
    simp [start, lookupCall]
  · intro x e w1 ht h
    simp [MapAddress, call_eq, start, ht, h]
  · intro x e w1 ht h
    simp [MapAddress, call_eq, start, ht, h]

/-- C3: in a quota-granted `MapAddress` call whose `GetPools` returns `pools`,
`MapExternalIP` is called exactly once, with the ID of the first pool of
`pools` that is eligible (named `poolName` when a name is given, whatever its
`Free`; with `Free > 0` when none is given); when no pool is eligible,
`MapExternalIP` is not called and `MapAddress` returns `ErrPoolEmpty`. -/
theorem MapAddress_pool_selection {W : Type} (c : controller W) (tenantID : String)
    (poolName : Option String) (instanceID : String) (w w1 w2 w3 : W) (i : Instance)
    (res : Result) (pools : List Pool)
    (hi : lookup c tenantID instanceID w = ((some i, none), w1))
    (hq : c.qs.Consume i.TenantID oneExternalIP w1 = (res, w2))
    (hallow : res.Allowed = true)
    (hp : c.ds.GetPools w2 = ((pools, none), w3)) :
    (∀ p, pools.find? (eligible poolName) = some p →
      (MapAddress c tenantID poolName instanceID (start w)).2.calls.filter
        Call.isMapExternalIP = [.MapExternalIP p.ID instanceID]) ∧
    (pools.find? (eligible poolName) = none →
      (MapAddress c tenantID poolName instanceID (start w)).2.calls.filter
        Call.isMapExternalIP = [] ∧
      (MapAddress c tenantID poolName instanceID (start w)).1
        = .returned (some .ErrPoolEmpty)) := by
  have hl : Call.isMapExternalIP (lookupCall tenantID instanceID) = false := by
    unfold lookupCall; split <;> rfl
  have hc : Call.isMapExternalIP (Call.Consume i.TenantID oneExternalIP) = false := rfl
  have hr : Call.isMapExternalIP (Call.Release i.TenantID oneExternalIP) = false := rfl
  have hg : Call.isMapExternalIP Call.GetPools = false := rfl
  constructor
  · intro p hf
    have hx : Call.isMapExternalIP (Call.MapExternalIP p.ID instanceID) = true := rfl
    unfold MapAddress
    rw [lookup_step]
    simp only [call_eq, start, hi, hq, mapAddressBody, hallow, hp, mapLoop_eq, hf,
      Bool.not_true, Bool.false_eq_true, if_false]
    rcases hm : c.ds.MapExternalIP p.ID instanceID w3 with ⟨⟨m, _ | e⟩, w4⟩
    · simp only
      obtain ⟨added, ha, hfa⟩ := mapAddressAgent_log c m
        ⟨w4, [] ++ [lookupCall tenantID instanceID] ++ [Call.Consume i.TenantID oneExternalIP]
          ++ [Call.GetPools] ++ [Call.MapExternalIP p.ID instanceID]⟩
        Call.isMapExternalIP (fun _ => rfl) (fun _ => rfl) (fun _ _ => rfl) (fun _ _ => rfl)
      rcases hb : mapAddressAgent c m
        ⟨w4, [] ++ [lookupCall tenantID instanceID] ++ [Call.Consume i.TenantID oneExternalIP]
          ++ [Call.GetPools] ++ [Call.MapExternalIP p.ID instanceID]⟩ with ⟨⟨err, panics⟩, s7⟩
      rw [hb] at ha
      simp only at ha
      cases err <;>
        simp [callUnit, ha, List.filter_append, List.filter_cons, hl, hc, hr, hg, hx, hfa]
    · simp [callUnit, List.filter_append, List.filter_cons, hl, hc, hr, hg, hx]
  · intro hf
    unfold MapAddress
    rw [lookup_step]
    simp [call_eq, start, hi, hq, mapAddressBody, hallow, hp, mapLoop_eq, hf, callUnit,
      List.filter_cons, hl, hc, hr, hg]

/-- C4: in a `MapAddress` call whose `MapExternalIP` succeeded with mapping
`m`, a failure `e` of `GetTenant m.TenantID`, or of the remote `mapExternalIP`,
is followed by one run of `UnMapAddress m.ExternalIP` and then by the deferred
`Release`, and nothing else; `MapAddress` returns `e` whatever `UnMapAddress`
returned (`r` is `nil` or any error); the log holds one `GetMappedIP` call,
the one of that run. -/
theorem MapAddress_compensation {W : Type} (c : controller W) (tenantID : String)
    (poolName : Option String) (instanceID : String) (w w1 w2 w3 w4 : W) (i : Instance)
    (res : Result) (pools : List Pool) (p : Pool) (m : MappedIP)
    (hi : lookup c tenantID instanceID w = ((some i, none), w1))
    (hq : c.qs.Consume i.TenantID oneExternalIP w1 = (res, w2))
    (hallow : res.Allowed = true)
    (hp : c.ds.GetPools w2 = ((pools, none), w3))
    (hsel : pools.find? (eligible poolName) = some p)
    (hm : c.ds.MapExternalIP p.ID instanceID w3 = ((m, none), w4)) :
    (∀ x e w5 r, c.ds.GetTenant m.TenantID w4 = ((x, some e), w5) →
      (UnMapAddress c m.ExternalIP
        ⟨w5, [lookupCall tenantID instanceID, .Consume i.TenantID oneExternalIP, .GetPools,
          .MapExternalIP p.ID instanceID, .GetTenant m.TenantID]⟩).1 = .returned r →
      MapAddress c tenantID poolName instanceID (start w) =
        (.returned (some e),
          callUnit (.Release i.TenantID oneExternalIP) (c.qs.Release i.TenantID oneExternalIP)
            (UnMapAddress c m.ExternalIP
              ⟨w5, [lookupCall tenantID instanceID, .Consume i.TenantID oneExternalIP,
                .GetPools, .MapExternalIP p.ID instanceID, .GetTenant m.TenantID]⟩).2) ∧
      (MapAddress c tenantID poolName instanceID (start w)).2.calls.filter
        Call.isGetMappedIP = [.GetMappedIP m.ExternalIP]) ∧
    (∀ t e w5 w6 r, c.ds.GetTenant m.TenantID w4 = ((some t, none), w5) →
      c.client.mapExternalIP t m w5 = (some e, w6) →
      (UnMapAddress c m.ExternalIP
        ⟨w6, [lookupCall tenantID instanceID, .Consume i.TenantID oneExternalIP, .GetPools,
          .MapExternalIP p.ID instanceID, .GetTenant m.TenantID,
          .mapExternalIP t m]⟩).1 = .returned r →
      MapAddress c tenantID poolName instanceID (start w) =
        (.returned (some e),
          callUnit (.Release i.TenantID oneExternalIP) (c.qs.Release i.TenantID oneExternalIP)
            (UnMapAddress c m.ExternalIP
              ⟨w6, [lookupCall tenantID instanceID, .Consume i.TenantID oneExternalIP,
                .GetPools, .MapExternalIP p.ID instanceID, .GetTenant m.TenantID,
                .mapExternalIP t m]⟩).2) ∧
      (MapAddress c tenantID poolName instanceID (start w)).2.calls.filter
        Call.isGetMappedIP = [.GetMappedIP m.ExternalIP]) := by
  have hl : Call.isGetMappedIP (lookupCall tenantID instanceID) = false := by
    unfold lookupCall; split <;> rfl
  have h1 : Call.isGetMappedIP (Call.Consume i.TenantID oneExternalIP) = false := rfl
  have h2 : Call.isGetMappedIP Call.GetPools = false := rfl
  have h3 : Call.isGetMappedIP (Call.MapExternalIP p.ID instanceID) = false := rfl
  have h4 : Call.isGetMappedIP (Call.GetTenant m.TenantID) = false := rfl
  have h5 : ∀ t, Call.isGetMappedIP (Call.mapExternalIP t m) = false := fun _ => rfl
  have h6 : Call.isGetMappedIP (Call.Release i.TenantID oneExternalIP) = false := rfl
  constructor
  · intro x e w5 r ht hu
    have heq := MapAddress_tenant_failure c tenantID poolName instanceID w w1 w2 w3 w4 w5 i
      res pools p m x e r hi hq hallow hp hsel hm ht hu
    have hg := UnMapAddress_isGetMappedIP c m.ExternalIP
      ⟨w5, [lookupCall tenantID instanceID, .Consume i.TenantID oneExternalIP, .GetPools,
        .MapExternalIP p.ID instanceID, .GetTenant m.TenantID]⟩
    refine ⟨heq, ?_⟩
    rw [heq]
    simp only [List.filter_cons, hl, h1, h2, h3, h4, Bool.false_eq_true, if_false,
      List.filter_nil, List.nil_append] at hg
    simp [callUnit, List.filter_append, List.filter_cons, hg, h6]
  · intro t e w5 w6 r ht hr hu
    have heq := MapAddress_remote_failure c tenantID poolName instanceID w w1 w2 w3 w4 w5 w6
      i res pools p m t e r hi hq hallow hp hsel hm ht hr hu
    have hg := UnMapAddress_isGetMappedIP c m.ExternalIP
      ⟨w6, [lookupCall tenantID instanceID, .Consume i.TenantID oneExternalIP, .GetPools,
        .MapExternalIP p.ID instanceID, .GetTenant m.TenantID, .mapExternalIP t m]⟩
    refine ⟨heq, ?_⟩
    rw [heq]
    simp only [List.filter_cons, hl, h1, h2, h3, h4, h5, Bool.false_eq_true, if_false,
      List.filter_nil, List.nil_append] at hg
    simp [callUnit, List.filter_append, List.filter_cons, hg, h6]

/-- C5 (as the code behaves): in a `MapAddress` call whose mapping `m` was
committed by `MapExternalIP`, whose remote `mapExternalIP` then fails with `e`
and whose compensating `UnMapAddress` returns `nil`, `MapAddress` returns `e`
and its only store write is that one `MapExternalIP`: no call deletes the
record or gives the address back.  So for every view `store` of the world that
the lookups, the remote client and `Release` leave alone, the view after
`MapAddress` is the view right after the commit. -/
theorem MapAddress_rollback_keeps_store {W S : Type} (c : controller W) (store : W → S)
    (tenantID : String) (poolName : Option String) (instanceID : String)
    (w w1 w2 w3 w4 w5 w6 : W) (i : Instance) (res : Result) (pools : List Pool) (p : Pool)
    (m : MappedIP) (t : Tenant) (e : Err)
    (hfT : ∀ a x, store (c.ds.GetTenant a x).2 = store x)
    (hfM : ∀ a x, store (c.ds.GetMappedIP a x).2 = store x)
    (hfC : ∀ t m x, store (c.client.mapExternalIP t m x).2 = store x)
    (hfU : ∀ t m x, store (c.client.unMapExternalIP t m x).2 = store x)
    (hfR : ∀ a r x, store (c.qs.Release a r x) = store x)
    (hi : lookup c tenantID instanceID w = ((some i, none), w1))
    (hq : c.qs.Consume i.TenantID oneExternalIP w1 = (res, w2))
    (hallow : res.Allowed = true)
    (hp : c.ds.GetPools w2 = ((pools, none), w3))
    (hsel : pools.find? (eligible poolName) = some p)
    (hm : c.ds.MapExternalIP p.ID instanceID w3 = ((m, none), w4))
    (ht : c.ds.GetTenant m.TenantID w4 = ((some t, none), w5))
    (hr : c.client.mapExternalIP t m w5 = (some e, w6))
    (hu : (UnMapAddress c m.ExternalIP
        ⟨w6, [lookupCall tenantID instanceID, .Consume i.TenantID oneExternalIP, .GetPools,
          .MapExternalIP p.ID instanceID, .GetTenant m.TenantID,
          .mapExternalIP t m]⟩).1 = .returned none) :
    (MapAddress c tenantID poolName instanceID (start w)).1 = .returned (some e) ∧
    store (MapAddress c tenantID poolName instanceID (start w)).2.world = store w4 ∧
    (MapAddress c tenantID poolName instanceID (start w)).2.calls.filter Call.isStoreWrite
      = [.MapExternalIP p.ID instanceID] := by
  have heq := MapAddress_remote_failure c tenantID poolName instanceID w w1 w2 w3 w4 w5 w6
    i res pools p m t e none hi hq hallow hp hsel hm ht hr hu
  have hl : Call.isStoreWrite (lookupCall tenantID instanceID) = false := by
    unfold lookupCall; split <;> rfl
  have h1 : Call.isStoreWrite (Call.Consume i.TenantID oneExternalIP) = false := rfl
  have h2 : Call.isStoreWrite Call.GetPools = false := rfl
  have h3 : Call.isStoreWrite (Call.MapExternalIP p.ID instanceID) = true := rfl
  have h4 : Call.isStoreWrite (Call.GetTenant m.TenantID) = false := rfl
  have h5 : Call.isStoreWrite (Call.mapExternalIP t m) = false := rfl
  have h6 : Call.isStoreWrite (Call.Release i.TenantID oneExternalIP) = false := rfl
  refine ⟨by rw [heq], ?_, ?_⟩
  · rw [heq]
    simp only [callUnit]
    rw [hfR, UnMapAddress_frame c store hfT hfM hfU]
    have a1 := hfC t m w5
    have a2 := hfT m.TenantID w4
    rw [hr] at a1
    rw [ht] at a2
    simp only at a1 a2
    simp only [a1, a2]
  · rw [heq]
    obtain ⟨added, ha, hf⟩ := UnMapAddress_log c m.ExternalIP
      ⟨w6, [lookupCall tenantID instanceID, .Consume i.TenantID oneExternalIP, .GetPools,
        .MapExternalIP p.ID instanceID, .GetTenant m.TenantID, .mapExternalIP t m]⟩
      Call.isStoreWrite (fun _ => rfl) (fun _ => rfl) (fun _ _ => rfl)
    simp [callUnit, ha, List.filter_append, List.filter_cons, hl, h1, h2, h3, h4, h5, h6, hf]

/-! ## The properties on the reference world -/

/-- C1 on the reference world: with the remote agent rejecting the map command
the call fails and `Release` is logged once, for `t1`; with a healthy agent the
call succeeds and no `Release` is logged. -/
theorem MapAddress_release_iff_error_witness :
    (MapAddress Sim.controller "" none "i1" (start worldDown)).1 = .returned (some mapFailed) ∧
    (MapAddress Sim.controller "" none "i1" (start worldDown)).2.calls.filter Call.isRelease
      = [.Release "t1" oneExternalIP] ∧
    (MapAddress Sim.controller "" none "i1" (start world1)).1 = .returned none ∧
    (MapAddress Sim.controller "" none "i1" (start world1)).2.calls.filter Call.isRelease
      = [] :=
  ⟨by decide,
    (MapAddress_release_iff_error Sim.controller "" none "i1" worldDown worldDown
      worldDownConsumed instance1 ⟨true⟩ (by decide) (by decide) rfl).1 mapFailed (by decide),
    by decide,
    (MapAddress_release_iff_error Sim.controller "" none "i1" world1 world1
      { world1 with quotaUsage := 1 } instance1 ⟨true⟩ (by decide) (by decide) rfl).2
      (by decide)⟩

/-- C2 fails on the reference world without quota: the instance resolves, the
request is denied and `MapAddress` returns `ErrQuota`, yet the log holds a
`Release` for `t1`. -/
theorem MapAddress_quota_denied_calls_Release :
    lookup Sim.controller "" "i1" worldNoQuota = ((some instance1, none), worldNoQuota) ∧
    (Sim.controller.qs.Consume "t1" oneExternalIP worldNoQuota).1.Allowed = false ∧
    (MapAddress Sim.controller "" none "i1" (start worldNoQuota)).1
      = .returned (some .ErrQuota) ∧
    Call.Release "t1" oneExternalIP
      ∈ (MapAddress Sim.controller "" none "i1" (start worldNoQuota)).2.calls := by
  decide

/-- C2 (as the code behaves) on the reference world without quota. -/
theorem MapAddress_quota_denied_witness :
    (Sim.controller.qs.Consume "t1" oneExternalIP worldNoQuota).1.Allowed = false ∧
    MapAddress Sim.controller "" none "i1" (start worldNoQuota) =
      (.returned (some .ErrQuota),
        ⟨Sim.qs.Release "t1" oneExternalIP worldNoQuota,
          [.GetInstance "i1", .Consume "t1" oneExternalIP, .Release "t1" oneExternalIP]⟩) :=
  ⟨by decide,
    MapAddress_quota_denied Sim.controller "" none "i1" worldNoQuota worldNoQuota worldNoQuota
      instance1 ⟨false⟩ (by decide) (by decide) rfl⟩

/-- C3 on the reference world with the exhausted pool `p0` listed first: with
no name the claim goes to `p1`, with the name `old` it goes to `p0` although
its `Free` is zero, and with an unknown name nothing is claimed and the call
fails with `ErrPoolEmpty`. -/
theorem MapAddress_pool_selection_witness :
    (MapAddress Sim.controller "" none "i1" (start world2)).2.calls.filter
      Call.isMapExternalIP = [.MapExternalIP "p1" "i1"] ∧
    (MapAddress Sim.controller "" (some "old") "i1" (start world2)).2.calls.filter
      Call.isMapExternalIP = [.MapExternalIP "p0" "i1"] ∧
    ((MapAddress Sim.controller "" (some "gone") "i1" (start world2)).2.calls.filter
      Call.isMapExternalIP = [] ∧
      (MapAddress Sim.controller "" (some "gone") "i1" (start world2)).1
        = .returned (some .ErrPoolEmpty)) :=
  ⟨(MapAddress_pool_selection Sim.controller "" none "i1" world2 world2 world2Consumed
      world2Consumed instance1 ⟨true⟩ [pool0, pool1] (by decide) (by decide) rfl
      (by decide)).1 pool1 (by decide),
    (MapAddress_pool_selection Sim.controller "" (some "old") "i1" world2 world2 world2Consumed
      world2Consumed instance1 ⟨true⟩ [pool0, pool1] (by decide) (by decide) rfl
      (by decide)).1 pool0 (by decide),
    (MapAddress_pool_selection Sim.controller "" (some "gone") "i1" world2 world2
      world2Consumed world2Consumed instance1 ⟨true⟩ [pool0, pool1] (by decide) (by decide) rfl
      (by decide)).2 (by decide)⟩

/-- C4 on the reference world: with an agent that rejects every command the
compensating `UnMapAddress` returns `unMapFailed`, and `MapAddress` still
returns `mapFailed`; with the tenant missing, `MapAddress` returns the
`GetTenant` error.  Each log holds one `GetMappedIP`. -/
theorem MapAddress_compensation_witness :
    (UnMapAddress Sim.controller "10.0.0.2"
      ⟨worldDeadCommitted, [.GetInstance "i1", .Consume "t1" oneExternalIP, .GetPools,
        .MapExternalIP "p1" "i1", .GetTenant "t1", .mapExternalIP tenant1 mapping1]⟩).1
      = .returned (some unMapFailed) ∧
    (MapAddress Sim.controller "" none "i1" (start worldDead)).1
      = .returned (some mapFailed) ∧
    (MapAddress Sim.controller "" none "i1" (start worldDead)).2.calls.filter
      Call.isGetMappedIP = [.GetMappedIP "10.0.0.2"] ∧
    (MapAddress Sim.controller "" none "i1" (start worldNoTenant)).1
      = .returned (some notFound) ∧
    (MapAddress Sim.controller "" none "i1" (start worldNoTenant)).2.calls.filter
      Call.isGetMappedIP = [.GetMappedIP "10.0.0.2"] :=
  ⟨by decide,
    congrArg Prod.fst
      ((MapAddress_compensation Sim.controller "" none "i1" worldDead worldDead
        worldDeadConsumed worldDeadConsumed worldDeadCommitted instance1 ⟨true⟩ [pool1] pool1
        mapping1 (by decide) (by decide) rfl (by decide) (by decide) (by decide)).2
        tenant1 mapFailed worldDeadCommitted worldDeadCommitted (some unMapFailed)
        (by decide) (by decide) (by decide)).1,
    ((MapAddress_compensation Sim.controller "" none "i1" worldDead worldDead
        worldDeadConsumed worldDeadConsumed worldDeadCommitted instance1 ⟨true⟩ [pool1] pool1
        mapping1 (by decide) (by decide) rfl (by decide) (by decide) (by decide)).2
        tenant1 mapFailed worldDeadCommitted worldDeadCommitted (some unMapFailed)
        (by decide) (by decide) (by decide)).2,
    congrArg Prod.fst
      ((MapAddress_compensation Sim.controller "" none "i1" worldNoTenant worldNoTenant
        worldNoTenantConsumed worldNoTenantConsumed worldNoTenantCommitted instance1 ⟨true⟩
        [pool1] pool1 mapping1 (by decide) (by decide) rfl (by decide) (by decide)
        (by decide)).1
        none notFound worldNoTenantCommitted (some notFound) (by decide) (by decide)).1,
    ((MapAddress_compensation Sim.controller "" none "i1" worldNoTenant worldNoTenant
        worldNoTenantConsumed worldNoTenantConsumed worldNoTenantCommitted instance1 ⟨true⟩
        [pool1] pool1 mapping1 (by decide) (by decide) rfl (by decide) (by decide)
        (by decide)).1
        none notFound worldNoTenantCommitted (some notFound) (by decide) (by decide)).2⟩

/-- C5 fails on the reference world whose agent rejects the map command: the
mapping of `10.0.0.2` is committed, the remote call fails, the compensating
`UnMapAddress` returns `nil`, and after `MapAddress` has returned the store
still finds the mapping and the pool's `Free` is 0, not the 1 it was before. -/
theorem MapAddress_rollback_leaves_mapping :
    Sim.controller.ds.MapExternalIP "p1" "i1" worldDownConsumed
      = ((mapping1, none), worldDownCommitted) ∧
    Sim.controller.client.mapExternalIP tenant1 mapping1 worldDownCommitted
      = (some mapFailed, worldDownCommitted) ∧
    (UnMapAddress Sim.controller "10.0.0.2"
      ⟨worldDownCommitted, [.GetInstance "i1", .Consume "t1" oneExternalIP, .GetPools,
        .MapExternalIP "p1" "i1", .GetTenant "t1", .mapExternalIP tenant1 mapping1]⟩).1
      = .returned none ∧
    MapAddress Sim.controller "" none "i1" (start worldDown) =
      (.returned (some mapFailed),
        ⟨{ worldDownCommitted with quotaUsage := 0 },
          [.GetInstance "i1", .Consume "t1" oneExternalIP, .GetPools,
            .MapExternalIP "p1" "i1", .GetTenant "t1", .mapExternalIP tenant1 mapping1,
            .GetMappedIP "10.0.0.2", .GetTenant "t1", .unMapExternalIP tenant1 mapping1,
            .Release "t1" oneExternalIP]⟩) ∧
    (Sim.controller.ds.GetMappedIP "10.0.0.2"
      (MapAddress Sim.controller "" none "i1" (start worldDown)).2.world).1
      = (mapping1, none) ∧
    worldDown.pools.map Pool.Free = [1] ∧
    (MapAddress Sim.controller "" none "i1" (start worldDown)).2.world.pools.map Pool.Free
      = [0] := by
  decide

/-- C5 (as the code behaves) on the reference world whose agent rejects the map
command: the store's pools and mapped IPs after `MapAddress` are those right
after the commit, and `MapExternalIP` is the only store write. -/
theorem MapAddress_rollback_keeps_store_witness :
    (MapAddress Sim.controller "" none "i1" (start worldDown)).1
      = .returned (some mapFailed) ∧
    Sim.store (MapAddress Sim.controller "" none "i1" (start worldDown)).2.world
      = ([{ pool1 with Free := 0 }], [mapping1]) ∧
    (MapAddress Sim.controller "" none "i1" (start worldDown)).2.calls.filter
      Call.isStoreWrite = [.MapExternalIP "p1" "i1"] :=
  MapAddress_rollback_keeps_store Sim.controller Sim.store "" none "i1" worldDown worldDown
    worldDownConsumed worldDownConsumed worldDownCommitted worldDownCommitted
    worldDownCommitted instance1 ⟨true⟩ [pool1] pool1 mapping1 tenant1 mapFailed
    (by intro a x; simp only [Sim.controller, Sim.ds]; split <;> rfl)
    (by intro a x; simp only [Sim.controller, Sim.ds]; split <;> rfl)
    (by intro t m x; simp only [Sim.controller, Sim.client]; split <;> rfl)
    (by intro t m x; simp only [Sim.controller, Sim.client]; split <;> rfl)
    (by intro a r x; rfl)
    (by decide) (by decide) rfl (by decide) (by decide) (by decide) (by decide) (by decide)
    (by decide)

/-- C6 on the reference world: the administrator's lookup of an unknown
instance, and tenant `t2`'s lookup of the instance of `t1`, both fail with
`notFound` after that one call. -/
theorem MapAddress_lookup_failure_witness :
    MapAddress Sim.controller "" none "i9" (start world1)
      = (.returned (some notFound), ⟨world1, [.GetInstance "i9"]⟩) ∧
    MapAddress Sim.controller "t2" none "i1" (start world1)
      = (.returned (some notFound), ⟨world1, [.GetTenantInstance "t2" "i1"]⟩) :=
  ⟨(MapAddress_lookup_failure Sim.controller "" none "i9" world1).2.1 none notFound world1
      rfl (by decide),
    (MapAddress_lookup_failure Sim.controller "t2" none "i1" world1).2.2 none notFound world1
      (by decide) (by decide)⟩

/-- C7 on the reference world: `AddPool "new"` succeeds once, and the same call
on the world it leaves fails with `ErrDuplicatePoolName` after `GetPools`
alone. -/
theorem AddPool_duplicate_name_witness :
    AddPool Sim.controller "new" none ["10.0.1.2"] (start world1)
      = ((poolNew, none),
          ⟨world1New, [.GetPools, .uuidGenerate,
            .AddPool { Pool.zero with ID := "pool-0", Name := "new" },
            .AddExternalIPs "pool-0" ["10.0.1.2"], .GetPool "pool-0"]⟩) ∧
    AddPool Sim.controller "new" none ["10.0.1.2"] (start world1New)
      = ((Pool.zero, some .ErrDuplicatePoolName), ⟨world1New, [.GetPools]⟩) :=
  ⟨by decide,
    AddPool_duplicate_name Sim.controller "new" none ["10.0.1.2"] world1New world1New
      [pool1, poolNew] poolNew (by decide) (by decide) rfl⟩

/-- C10 on the reference world: unmapping the committed address returns the
agent's answer after the two lookups, unmapping an unknown address returns
`notFound` after `GetMappedIP` alone, and unmapping with the tenant missing
returns `notFound` after the two lookups. -/
theorem UnMapAddress_contract_witness :
    UnMapAddress Sim.controller "10.0.0.2" (start worldDownCommitted)
      = (.returned none,
          ⟨worldDownCommitted,
            [.GetMappedIP "10.0.0.2", .GetTenant "t1", .unMapExternalIP tenant1 mapping1]⟩) ∧
    UnMapAddress Sim.controller "10.0.0.9" (start world1)
      = (.returned (some notFound), ⟨world1, [.GetMappedIP "10.0.0.9"]⟩) ∧
    UnMapAddress Sim.controller "10.0.0.2" (start worldNoTenantCommitted)
      = (.returned (some notFound),
          ⟨worldNoTenantCommitted, [.GetMappedIP "10.0.0.2", .GetTenant "t1"]⟩) :=
  ⟨(UnMapAddress_contract Sim.controller "10.0.0.2" worldDownCommitted).2.2.1 mapping1
      worldDownCommitted tenant1 worldDownCommitted (by decide) (by decide),
    (UnMapAddress_contract Sim.controller "10.0.0.9" world1).1 MappedIP.zero notFound world1
      (by decide),
    (UnMapAddress_contract Sim.controller "10.0.0.2" worldNoTenantCommitted).2.1 mapping1
      worldNoTenantCommitted none notFound worldNoTenantCommitted (by decide) (by decide)⟩

/-- On the reference world with `mapping1` committed, the administrator's
listing carries the `self` and `pool` links and tenant `t1`'s listing the
tenant-scoped `self` link alone. -/
theorem ListMappedAddresses_example :
    (ListMappedAddresses Sim.controller none (start worldDownCommitted)).1
      = [{ mapping1 with
            Links := [⟨"self", "http://c/external-ips/a1"⟩, ⟨"pool", "http://c/pools/p1"⟩] }] ∧
    (ListMappedAddresses Sim.controller (some "t1") (start worldDownCommitted)).1
      = [{ mapping1 with Links := [⟨"self", "http://c/t1/external-ips/a1"⟩] }] := by
  decide

/-- On the reference world, `RemoveAddress` with both identifiers deletes the
subnet only, and with neither it fails with `ErrBadRequest` without touching
the store. -/
theorem RemoveAddress_example :
    (RemoveAddress Sim.controller "p1" (some "s1") (some "a1") (start world1)).2.calls
      = [.DeleteSubnet "p1" "s1"] ∧
    (RemoveAddress Sim.controller "p1" none (some "a1") (start world1)).2.calls
      = [.DeleteExternalIP "p1" "a1"] ∧
    RemoveAddress Sim.controller "p1" none none (start world1)
      = (some .ErrBadRequest, start world1) := by
  decide

end Ciao
